import Mathlib

/-!
# Verification of the booktok-backend video-generation pipeline

Shallow embedding of the pipeline services of the booktok-backend repository:

* the LLM text client (`services/videoGenerationService.js`, `generateText`),
* the image generation service (`imageGenerationService.js`),
* the voice synthesis step and orchestrator (`bookVideoPipelineService.js`),
* the video compiler service (`videoCompilerService.js`).

Asynchronous provider calls and the FFmpeg child process are modelled by
explicit outcome oracles carried in environment records; each embedded
function additionally reports how many calls it issued to each collaborator,
so that call-count properties of the specification can be stated.
JavaScript `Promise` rejection / `throw` is modelled with `Except String`,
carrying the same error-message strings the source constructs.
-/

namespace BookTok

/-! ## Small string utilities shared by several services -/

/-- Returns `true` when `pat` occurs as a contiguous substring of `s`
(JavaScript `String.prototype.includes`). -/
def strContains (s pat : String) : Bool :=
  decide (pat.toList <:+: s.toList)

/-- JavaScript `s.startsWith(pre)` (literal prefix test). -/
def jsStartsWith (s pre : String) : Bool :=
  s.toList.take pre.toList.length = pre.toList

/-- The double-quote character (written via its code point). -/
def quoteChar : Char := Char.ofNat 34

/-- The apostrophe character (written via its code point). -/
def aposChar : Char := Char.ofNat 39

/-! ## LLM client — `generateText` of `src/ai-service/services/videoGenerationService.js`

```js
export async function generateText(prompt) {
  if (OPENROUTER_API_KEY) {
    try {
      const { data } = await axios.post(..., { model, messages: [...] }, ...);
      const text = data?.choices?.[0]?.message?.content || '';
      if (text) return text;
    } catch (err) { console.warn(...); }
  }
  if (geminiModel) {
    try {
      const result = await geminiModel.generateContent(prompt);
      return result.response.text();
    } catch (err) { console.error(...); }
  }
  return '';
}
```
-/

/-- Outcome of one outbound provider call: either a response text
(already extracted, `''` when the response shape carried no content)
or a thrown error with its message. -/
inductive ProviderOutcome where
  | ok (text : String)
  | err (msg : String)
deriving DecidableEq, Repr

/-- Environment for one `generateText` invocation: which providers are
configured and what each would do if called. -/
structure LLMEnv where
  openRouterConfigured : Bool
  openRouterOutcome : ProviderOutcome
  geminiConfigured : Bool
  geminiOutcome : ProviderOutcome
deriving DecidableEq, Repr

/-- Result of `generateText` together with the number of calls issued to
each provider. -/
structure LLMTrace where
  result : String
  openRouterCalls : Nat
  geminiCalls : Nat
deriving DecidableEq, Repr

/-- The Gemini-SDK fallback tail of `generateText` (`if (geminiModel) ...`),
entered with the number of OpenRouter calls already made. -/
def geminiFallback (env : LLMEnv) (openRouterCalls : Nat) : LLMTrace :=
  if env.geminiConfigured then
    match env.geminiOutcome with
    | .ok t => ⟨t, openRouterCalls, 1⟩
    | .err _ => ⟨"", openRouterCalls, 1⟩
  else ⟨"", openRouterCalls, 0⟩

/-- Embeds `generateText`: OpenRouter first when configured; a falsy (empty) or
thrown OpenRouter result falls through to the Gemini SDK when configured;
otherwise the empty string. Never throws. -/
def generateText (env : LLMEnv) : LLMTrace :=
  if env.openRouterConfigured then
    match env.openRouterOutcome with
    | .ok text => if text = "" then geminiFallback env 1 else ⟨text, 1, 0⟩
    | .err _ => geminiFallback env 1
  else geminiFallback env 0

/-! ## Speaking-duration estimator — `calculateSpeakingDuration` of
`bookVideoPipelineService.js`

```js
function calculateSpeakingDuration(text) {
  const wordCount = text.split(/\s+/).length;
  const wordsPerSecond = 2.5;
  return Math.ceil(wordCount / wordsPerSecond);
}
```
-/

/-- Scanner state for JavaScript `text.split(/\s+/)`: the pieces emitted
so far (reversed), the current piece (reversed), and whether the scan is
inside a whitespace separator run. -/
structure SplitWSState where
  done : List String
  cur : List Char
  inSep : Bool

/-- One step of the `/\s+/` split: a whitespace character inside a
separator run is absorbed; one starting a run emits the current piece; a
non-whitespace character extends (or starts) the current piece. -/
def splitWSStep (st : SplitWSState) (c : Char) : SplitWSState :=
  if c.isWhitespace then
    if st.inSep then st
    else { done := String.mk st.cur.reverse :: st.done, cur := [], inSep := true }
  else
    { done := st.done, cur := c :: st.cur, inSep := false }

/-- JavaScript `text.split(/\s+/)`: pieces between maximal whitespace
runs; a leading or trailing run contributes an empty piece, and the empty
string yields `[""]` (the final piece is always emitted, so the result is
never empty). -/
def jsSplitWS (text : String) : List String :=
  let st := text.toList.foldl splitWSStep ⟨[], [], false⟩
  (String.mk st.cur.reverse :: st.done).reverse

/-- Embeds `text.split(/\s+/).length`. -/
def wordCount (text : String) : Nat :=
  (jsSplitWS text).length

/-- Embeds `calculateSpeakingDuration`: `Math.ceil(wordCount / 2.5)`,
computed exactly over `ℚ`. -/
def calculateSpeakingDuration (text : String) : ℤ :=
  ⌈(wordCount text : ℚ) / (5 / 2 : ℚ)⌉

/-! ## Image generation service — `imageGenerationService.js`

The OpenRouter chat response probed by `generateSingleImage` is modelled by
`ImgResponse`; optional JavaScript fields are `Option`s, and JavaScript
truthiness on strings (empty string is falsy) is `optTruthy`.
-/

/-- JavaScript truthiness filter on an optional string field:
an absent field and the empty string are both falsy. -/
def optTruthy : Option String → Option String
  | some s => if s = "" then none else some s
  | none => none

/-- One entry of the `message.images` array: its `image_url.url` field. -/
structure ImagesEntry where
  image_url_url : Option String
deriving DecidableEq, Repr

/-- One part of an array-valued `message.content`: the fields probed by
the source (`type`, `image_url.url`, `inline_data.mime_type`,
`inline_data.data`). -/
structure ContentPart where
  type : Option String
  image_url_url : Option String
  inline_data_mime : Option String
  inline_data_data : Option String
deriving DecidableEq, Repr

/-- The `message.content` field: an array of parts, a string, or anything
else (modelled as `other`). -/
inductive MsgContent where
  | arr (parts : List ContentPart)
  | str (s : String)
  | other
deriving DecidableEq, Repr

/-- Embeds `choices[0].message` of the chat response. -/
structure ImgMessage where
  images : List ImagesEntry
  content : MsgContent
deriving DecidableEq, Repr

/-- One entry of a `response.data.data` array (`url` / `b64_json`). -/
structure DataEntry where
  url : Option String
  b64_json : Option String
deriving DecidableEq, Repr

/-- The chat-completions response body as probed by `generateSingleImage`:
`choices[0].message` (absent when `choices` is empty) and the
`data` array (empty when absent). -/
structure ImgResponse where
  message : Option ImgMessage
  dataArr : List DataEntry
deriving DecidableEq, Repr

/-- The probe of one content part, in source order:
`type === 'image' && image_url?.url`, then `inline_data?.data`
(with `mime_type || 'image/png'`), then
`type === 'image_url' && image_url?.url`. -/
def extractFromPart (p : ContentPart) : Option String :=
  match (if p.type = some "image" then optTruthy p.image_url_url else none) with
  | some u => some u
  | none =>
    match optTruthy p.inline_data_data with
    | some d =>
      let mimeType := match optTruthy p.inline_data_mime with
        | some m => m
        | none => "image/png"
      some ("data:" ++ mimeType ++ ";base64," ++ d)
    | none =>
      if p.type = some "image_url" then optTruthy p.image_url_url else none

/-- First successful probe over the parts of an array content, in order. -/
def extractFromParts : List ContentPart → Option String
  | [] => none
  | p :: ps =>
    match extractFromPart p with
    | some u => some u
    | none => extractFromParts ps

/-- A character ending the match of the URL regex character class
`[^\s\)\]"']`. -/
def isUrlStopChar (c : Char) : Bool :=
  c.isWhitespace || c = ')' || c = ']' || c = quoteChar || c = aposChar

/-- Case-insensitive literal-prefix test (for the `/i` flag of the URL
regex). -/
def lowerStartsWith (l : List Char) (pre : List Char) : Bool :=
  (l.take pre.length).map Char.toLower = pre

/-- Leftmost match of `/https?:\/\/[^\s\)\]"']+/i` over a character list:
at each position try the `https://` then `http://` scheme (case-insensitive),
require at least one following non-stop character, and take the maximal
run of non-stop characters. -/
def findUrlMatchAux : List Char → Option String
  | [] => none
  | l@(_ :: rest) =>
    let tryScheme (preLen : Nat) : Option String :=
      let tail := (l.drop preLen).takeWhile (fun c => ¬ isUrlStopChar c)
      if tail.length = 0 then none
      else some (String.mk (l.take preLen ++ tail))
    if lowerStartsWith l "https://".toList then
      match tryScheme 8 with
      | some m => some m
      | none => findUrlMatchAux rest
    else if lowerStartsWith l "http://".toList then
      match tryScheme 7 with
      | some m => some m
      | none => findUrlMatchAux rest
    else findUrlMatchAux rest

/-- Embeds `content.match(/https?:\/\/[^\s\)\]"']+/i)`, first match or `none`. -/
def findUrlMatch (s : String) : Option String :=
  findUrlMatchAux s.toList

/-- A base64-alphabet character (`[A-Za-z0-9+/=]`). -/
def isB64Char (c : Char) : Bool :=
  c.isAlphanum || c = '+' || c = '/' || c = '='

/-- Leftmost match of `/data:image\/[^;]+;base64,[A-Za-z0-9+/=]+/`:
after a literal `data:image/` take the (maximal) non-`;` run, require the
literal `;base64,`, then a nonempty base64 run. -/
def findBase64MatchAux : List Char → Option String
  | [] => none
  | l@(_ :: rest) =>
    let pre := "data:image/".toList
    let attempt : Option String :=
      if l.take pre.length = pre then
        let afterPre := l.drop pre.length
        let mid := afterPre.takeWhile (fun c => c ≠ ';')
        let afterMid := afterPre.drop mid.length
        if mid.length = 0 then none
        else if afterMid.take 8 = ";base64,".toList then
          let b64 := (afterMid.drop 8).takeWhile isB64Char
          if b64.length = 0 then none
          else some (String.mk (pre ++ mid ++ ";base64,".toList ++ b64))
        else none
      else none
    match attempt with
    | some m => some m
    | none => findBase64MatchAux rest

/-- Embeds `content.match(/data:image\/[^;]+;base64,[A-Za-z0-9+/=]+/)`. -/
def findBase64Match (s : String) : Option String :=
  findBase64MatchAux s.toList

/-- The string-content probe of `generateSingleImage`: a nonempty string
content is returned whole when it starts with `http` or `data:image`,
otherwise a URL and then a base64 data URL are searched for inside it. -/
def extractFromStringContent (content : String) : Option String :=
  if content = "" then none
  else if jsStartsWith content "http" then some content
  else if jsStartsWith content "data:image" then some content
  else
    match findUrlMatch content with
    | some u => some u
    | none => findBase64Match content

/-- The whole response-shape probe chain of `generateSingleImage`:
`message.images[0].image_url.url`, then the array-content parts, then the
string content, then `data[0].url`, then `data[0].b64_json`. -/
def extractImage (r : ImgResponse) : Option String :=
  let step1 : Option String :=
    match r.message with
    | some m =>
      match m.images with
      | e :: _ => optTruthy e.image_url_url
      | [] => none
    | none => none
  match step1 with
  | some u => some u
  | none =>
    let step23 : Option String :=
      match r.message with
      | some m =>
        match m.content with
        | .arr parts => extractFromParts parts
        | .str s => extractFromStringContent s
        | .other => none
      | none => none
    match step23 with
    | some u => some u
    | none =>
      match r.dataArr with
      | e :: _ =>
        match optTruthy e.url with
        | some u => some u
        | none =>
          match optTruthy e.b64_json with
          | some b => some ("data:image/png;base64," ++ b)
          | none => none
      | [] => none

/-- Outcome of the primary (chat-completions) image call for one scene. -/
inductive PrimaryCall where
  | ok (r : ImgResponse)
  | err (msg : String)
deriving DecidableEq, Repr

/-- Outcome of the fallback (`images/generations`) call for one scene:
a `data` array, or a thrown error. -/
inductive FallbackCall where
  | ok (dataArr : List DataEntry)
  | err (msg : String)
deriving DecidableEq, Repr

/-- Provider outcomes available to one scene's image generation. -/
structure SceneCallEnv where
  primary : PrimaryCall
  fallback : FallbackCall
deriving DecidableEq, Repr

/-- Embeds `generateImageFallback(prompt, index)`: one call to the secondary
model; only `response.data?.data?.[0]?.url` is probed; any error yields
`null`. Returns the result and the number of fallback calls issued (1). -/
def generateImageFallback (_prompt : String) (env : FallbackCall) :
    Option String × Nat :=
  let result : Option String :=
    match env with
    | .ok dataArr =>
      match dataArr with
      | e :: _ => optTruthy e.url
      | [] => none
    | .err _ => none
  (result, 1)

/-- Embeds `getStyleGuide(aesthetic)`: static lookup with `cinematic` default. -/
def getStyleGuide (aesthetic : String) : String :=
  if aesthetic = "dark-academia" then
    "dark moody lighting, vintage academic setting, rich browns and deep greens, mysterious atmosphere, gothic architecture, candlelight, old books"
  else if aesthetic = "paranormal-romance" then
    "ethereal lighting, magical atmosphere, soft focus romance, supernatural elements, misty background, moonlight, passionate mood"
  else if aesthetic = "paranormal-cozy" then
    "warm magical lighting, cozy interior, magical creatures, soft colors, enchanted objects, whimsical atmosphere, comfort and wonder"
  else if aesthetic = "paranormal-dark" then
    "dark supernatural atmosphere, ominous lighting, horror elements, deep shadows, eerie mood, gothic, dangerous beauty"
  else if aesthetic = "cozy-fantasy" then
    "warm golden lighting, fantasy village, magical creatures, enchanted forest, soft warm colors, inviting atmosphere, whimsical details"
  else if aesthetic = "contemporary" then
    "modern realistic setting, natural lighting, urban or suburban backdrop, relatable spaces, authentic mood, clean composition"
  else if aesthetic = "mystery-thriller" then
    "dramatic shadows, noir lighting, suspenseful atmosphere, urban night scenes, rain-slicked streets, mysterious mood, tension"
  else
    "cinematic composition, dramatic lighting, film grain, movie-like quality, professional cinematography, epic scale"

/-- Embeds `generateSingleImage(prompt, aesthetic, index)`: on a successful
primary call the response-shape probe chain decides the result (an
unparsable response yields `null` without any fallback call); on a thrown
primary call, `generateImageFallback` is tried once.
Returns (image or `null`, primary calls, fallback calls). -/
def generateSingleImage (prompt aesthetic : String) (env : SceneCallEnv) :
    Option String × Nat × Nat :=
  let styleGuide := getStyleGuide aesthetic
  let fullPrompt :=
    "Create a detailed, high-quality image of this scene in 3:4 portrait aspect ratio (768x1024 pixels): "
      ++ prompt ++ ". Style: " ++ styleGuide
      ++ ", cinematic lighting, high quality, detailed, 4k resolution. The image MUST be in portrait orientation (taller than wide, 3:4 ratio). Output only the generated image."
  match env.primary with
  | .ok r => (extractImage r, 1, 0)
  | .err _ =>
    let fb := generateImageFallback fullPrompt env.fallback
    (fb.1, 1, fb.2)

/-! ### Scene-prompt generation — `generateScenePrompts` -/

/-- JSON whitespace. -/
def isJsonWs (c : Char) : Bool :=
  c = ' ' || c = '\n' || c = '\t' || c = '\r'

/-- Drop leading JSON whitespace. -/
def skipWs (l : List Char) : List Char :=
  l.dropWhile isJsonWs

/-- Hexadecimal digit value, for `\uXXXX` escapes. -/
def hexVal (c : Char) : Option Nat :=
  if c.isDigit then some (c.toNat - '0'.toNat)
  else if 'a' ≤ c ∧ c ≤ 'f' then some (c.toNat - 'a'.toNat + 10)
  else if 'A' ≤ c ∧ c ≤ 'F' then some (c.toNat - 'A'.toNat + 10)
  else none

/-- Parse the body of a JSON string literal (opening quote already
consumed); returns the decoded string and the remaining input. -/
def parseStringLit : List Char → Option (String × List Char)
  | [] => none
  | c :: rest =>
    if c = quoteChar then some ("", rest)
    else if c = '\\' then
      match rest with
      | [] => none
      | e :: rest' =>
        if e = 'u' then
          match rest' with
          | h1 :: h2 :: h3 :: h4 :: rest'' =>
            match hexVal h1, hexVal h2, hexVal h3, hexVal h4 with
            | some a, some b, some cc, some d =>
              match parseStringLit rest'' with
              | some (s, r) =>
                some (String.singleton (Char.ofNat (((a * 16 + b) * 16 + cc) * 16 + d)) ++ s, r)
              | none => none
            | _, _, _, _ => none
          | _ => none
        else
          let decoded : Option Char :=
            if e = quoteChar then some quoteChar
            else if e = '\\' then some '\\'
            else if e = '/' then some '/'
            else if e = 'n' then some '\n'
            else if e = 't' then some '\t'
            else if e = 'r' then some '\r'
            else if e = 'b' then some (Char.ofNat 8)
            else if e = 'f' then some (Char.ofNat 12)
            else none
          match decoded with
          | some d =>
            match parseStringLit rest' with
            | some (s, r) => some (String.singleton d ++ s, r)
            | none => none
          | none => none
    else
      match parseStringLit rest with
      | some (s, r) => some (String.singleton c ++ s, r)
      | none => none
termination_by l => l.length
decreasing_by all_goals simp_arith

/-- Parse the comma-separated string elements of a JSON array (first
element expected next); returns the elements and the input remaining after
the closing bracket. Fueled for totality. -/
def parseElemsFuel : Nat → List Char → Option (List String × List Char)
  | 0, _ => none
  | fuel + 1, l =>
    match skipWs l with
    | [] => none
    | c :: rest =>
      if c = quoteChar then
        match parseStringLit rest with
        | some (s, r) =>
          match skipWs r with
          | ',' :: r' =>
            match parseElemsFuel fuel r' with
            | some (ss, rem) => some (s :: ss, rem)
            | none => none
          | ']' :: r' => some ([s], r')
          | _ => none
        | none => none
      else none

/-- Embeds `JSON.parse` restricted to the shape the source then consumes: a JSON
array of strings (a parse that yields anything else is modelled as a
failure, which the source turns into the fallback scenes). -/
def parseJsonStringArray (s : String) : Option (List String) :=
  match skipWs s.toList with
  | '[' :: rest =>
    match skipWs rest with
    | ']' :: rem => if (skipWs rem).isEmpty then some [] else none
    | _ =>
      match parseElemsFuel (rest.length + 1) rest with
      | some (ss, rem) => if (skipWs rem).isEmpty then some ss else none
      | none => none
  | _ => none

/-- Embeds `response.match(/\[[\s\S]*\]/)`: the span from the first `[` to the
last `]` after it, when both exist. -/
def matchBracketSpan (s : String) : Option String :=
  let cs := s.toList
  match cs.indexOf? '[' with
  | none => none
  | some i =>
    match cs.reverse.indexOf? ']' with
    | none => none
    | some k =>
      let j := cs.length - 1 - k
      if i < j then some (String.mk ((cs.drop i).take (j - i + 1))) else none

/-- Embeds `generateFallbackScenes(summary, numScenes)`. -/
def generateFallbackScenes (summary : String) (numScenes : Nat) : List String :=
  ([ "Opening scene establishing the world and mood of the story: " ++ summary.take 100,
     "A pivotal moment showing the main characters in their environment",
     "Rising tension or conflict scene with dramatic lighting",
     "Climactic moment capturing the emotional peak of the story",
     "Resolution or hook scene leaving viewers wanting more" ]).take numScenes

/-- Embeds `generateScenePrompts(summary, aesthetic, numScenes)`: one
`generateText` call; a bracketed span of the response is parsed as JSON
and truncated with `slice(0, numScenes)`; any miss or parse failure falls
back to the generic scenes. Returns (scenes, LLM calls issued). -/
def generateScenePrompts (summary _aesthetic : String) (numScenes : Nat)
    (llmResponse : String) : List String × Nat :=
  match matchBracketSpan llmResponse with
  | some span =>
    match parseJsonStringArray span with
    | some scenes => (scenes.take numScenes, 1)
    | none => (generateFallbackScenes summary numScenes, 1)
  | none => (generateFallbackScenes summary numScenes, 1)

/-- Embeds `generatePlaceholderImages(count)`: picsum URLs stamped with
`Date.now()` (the `now` argument) and the index. -/
def generatePlaceholderImages (now : Nat) (count : Nat) : List String :=
  (List.range count).map (fun i =>
    "https://picsum.photos/768/1024?random=" ++ toString now ++ "-" ++ toString i)

/-- Environment of one `generateImagesFromSummary` invocation. -/
structure ImageSvcEnv where
  /-- Embeds `!!OPENROUTER_API_KEY`. -/
  openRouterConfigured : Bool
  /-- Embeds `Date.now()` as observed by the placeholder generator. -/
  now : Nat
  /-- The `generateText` response for the scene-prompt request. -/
  sceneLlmResponse : String
  /-- Per-scene-index provider outcomes. -/
  calls : Nat → SceneCallEnv

/-- Observable outcome of `generateImagesFromSummary`: the returned image
list plus collaborator call counts and the raw (pre-filter) per-scene
results. -/
structure ImageSvcTrace where
  images : List String
  requestedSceneCount : Nat
  sceneLlmCalls : Nat
  primaryImageCalls : Nat
  fallbackImageCalls : Nat
  sceneResults : List (Option String)
deriving DecidableEq, Repr

/-- Embeds `generateImagesFromSummary(summary, aesthetic)`.
The source declares only two parameters and hardcodes
`const numImages = 4;` — callers pass a third `numImages` argument that the
signature does not declare, so it is ignored. Without an OpenRouter key the
placeholder path is taken; otherwise scene prompts are generated and one
`generateSingleImage` runs per scene, and the `null` results are filtered
out of the returned array. -/
def generateImagesFromSummary (summary aesthetic : String)
    (env : ImageSvcEnv) : ImageSvcTrace :=
  let numImages := 4
  if env.openRouterConfigured then
    let sp := generateScenePrompts summary aesthetic numImages env.sceneLlmResponse
    let results :=
      sp.1.enum.map (fun p => generateSingleImage p.2 aesthetic (env.calls p.1))
    { images := (results.map (·.1)).filterMap id
      requestedSceneCount := numImages
      sceneLlmCalls := sp.2
      primaryImageCalls := (results.map (fun r => r.2.1)).sum
      fallbackImageCalls := (results.map (fun r => r.2.2)).sum
      sceneResults := results.map (·.1) }
  else
    { images := generatePlaceholderImages env.now numImages
      requestedSceneCount := 0
      sceneLlmCalls := 0
      primaryImageCalls := 0
      fallbackImageCalls := 0
      sceneResults := [] }

/-- Embeds `isConfigured()` of the image service. -/
def imageIsConfigured (env : ImageSvcEnv) : Bool :=
  env.openRouterConfigured

/-! ## Video compiler service — `videoCompilerService.js`

The filesystem is modelled by the one fact the claims speak about: whether
the session-scoped temporary directory currently exists (`Bool`).
`fs.rm(sessionDir, { recursive: true, force: true })` always removes it;
the `try/catch` inside `cleanupSession` swallows any `rm` error, which is
modelled by `rm` succeeding. `Promise` rejection of the FFmpeg child
process is an `FFmpegEvent` oracle.
-/

/-- How the FFmpeg child process settles: a `close` event with an exit
code, or an `error` (spawn failure) event with a message. -/
inductive FFmpegEvent where
  | close (code : Nat)
  | spawnErr (msg : String)
deriving DecidableEq, Repr

/-- Options record of `compileVideo` / `compileVideoWithEffects` as the
orchestrator passes it (remaining source defaults are inlined at use
sites). -/
structure CompileOpts where
  resolution : String
  audioDuration : Option ℚ
  outputFormat : String := "mp4"
deriving DecidableEq, Repr

/-- Environment of one compiler invocation. -/
structure CompileEnv where
  /-- Embeds `crypto.randomBytes(8).toString('hex')`. -/
  sessionId : String
  /-- Whether the download of image index `i` succeeds
  (a failed download resolves to `null` and is filtered). -/
  downloadOk : Nat → Bool
  /-- The audio `fs.writeFile`: `ok` or a thrown filesystem error. -/
  audioWrite : Except String Unit
  /-- How the FFmpeg child process settles. -/
  ffmpegEvent : FFmpegEvent
  /-- The diagnostic stream accumulated from the child process. -/
  ffmpegStderr : String

/-- Successful compiler result (`videoPath`, `duration`, `sessionId`). -/
structure CompileOk where
  videoPath : String
  duration : ℚ
  sessionId : String
deriving DecidableEq, Repr

/-- Embeds `String(index).padStart(3, '0')`. -/
def padStart3 (i : Nat) : String :=
  let s := toString i
  if s.length ≥ 3 then s else String.mk (List.replicate (3 - s.length) '0') ++ s

/-- JavaScript `s.slice(-n)`: the last `n` characters (the whole string
when shorter). -/
def sliceLastN (s : String) (n : Nat) : String :=
  String.mk (s.toList.drop (s.toList.length - n))

/-- Embeds `downloadAllImages(urls, outputDir)`: one download per URL in
parallel; failures resolve to `null` and are filtered; the success paths
are the local file names, in original order. -/
def downloadAllImages (urls : List String) (ok : Nat → Bool)
    (outputDir : String) : List String :=
  urls.enum.filterMap (fun p =>
    if ok p.1 then
      some (outputDir ++ "/image_" ++ padStart3 p.1 ++ "."
        ++ (if strContains p.2 ".png" then "png" else "jpg"))
    else none)

/-- Embeds `cleanupSession(sessionDir)`: `fs.rm` recursive + force — after it the
directory does not exist. -/
def cleanupSession (_dirExists : Bool) : Bool :=
  false

/-- The awaited promise of `createVideoWithFFmpeg`: exit code 0 resolves;
a nonzero exit rejects with `FFmpeg exited with code N`; a spawn error
rejects with `FFmpeg error: MSG`. -/
def runFFmpeg (event : FFmpegEvent) : Except String Unit :=
  match event with
  | .close 0 => .ok ()
  | .close c => .error ("FFmpeg exited with code " ++ toString c)
  | .spawnErr m => .error ("FFmpeg error: " ++ m)

/-- The `try` block of `compileVideo`, entered after
`fs.mkdir(sessionDir)` (so the directory exists). Returns the settled
result together with the directory-existence state at the moment of
return or throw: the success path runs `cleanupSession` itself before
returning; a throw leaves the directory in place for the `catch`. -/
def compileVideoTry (imageUrls : List String) (hasAudio : Bool)
    (opts : CompileOpts) (env : CompileEnv) :
    Except String CompileOk × Bool :=
  let dirExists := true
  let sessionDir := "temp/" ++ env.sessionId
  let localImages := downloadAllImages imageUrls env.downloadOk sessionDir
  if localImages.length = 0 then
    (.error "No images were downloaded successfully", dirExists)
  else
    match (if hasAudio then env.audioWrite else .ok ()) with
    | .error m => (.error m, dirExists)
    | .ok _ =>
      let imageDuration : ℚ :=
        match opts.audioDuration with
        | some d => if d = 0 then 5 else d / localImages.length
        | none => 5
      let outputPath :=
        "output/video_" ++ env.sessionId ++ "." ++ opts.outputFormat
      match runFFmpeg env.ffmpegEvent with
      | .error m => (.error m, dirExists)
      | .ok _ =>
        let duration := localImages.length * imageDuration
        (.ok ⟨outputPath, duration, env.sessionId⟩, cleanupSession dirExists)

/-- Embeds `compileVideo(imageUrls, audioData, options)`: the `try` block above
wrapped in the `catch` that runs `cleanupSession` and rethrows. -/
def compileVideo (imageUrls : List String) (hasAudio : Bool)
    (opts : CompileOpts) (env : CompileEnv) :
    Except String CompileOk × Bool :=
  match compileVideoTry imageUrls hasAudio opts env with
  | (.ok v, st) => (.ok v, st)
  | (.error m, st) => (.error m, cleanupSession st)

/-- Embeds `compileVideoWithEffects(imageUrls, audioData, options)`, with the
cleanup each source path performs applied in place: a zero-image or
audio-write throw is caught by the function's own `catch` (cleanup, then
rethrow); the FFmpeg `close` handler — success or nonzero exit — runs
`cleanupSession` before settling the returned promise; the `error`
(spawn-failure) handler rejects the returned promise *without* cleanup,
and that rejection occurs after the function has returned so its `catch`
never sees it — the session directory is left behind on that path. -/
def compileVideoWithEffects (imageUrls : List String) (hasAudio : Bool)
    (opts : CompileOpts) (env : CompileEnv) :
    Except String CompileOk × Bool :=
  let dirExists := true
  let sessionDir := "temp/" ++ env.sessionId
  let localImages := downloadAllImages imageUrls env.downloadOk sessionDir
  if localImages.length = 0 then
    (.error "No images downloaded", cleanupSession dirExists)
  else
    match (if hasAudio then env.audioWrite else .ok ()) with
    | .error m => (.error m, cleanupSession dirExists)
    | .ok _ =>
      let imageDuration : ℚ :=
        match opts.audioDuration with
        | some d => if d = 0 then 3 else d / localImages.length
        | none => 3
      let outputPath :=
        "output/video_" ++ env.sessionId ++ "." ++ opts.outputFormat
      match env.ffmpegEvent with
      | .close 0 =>
        (.ok ⟨outputPath, localImages.length * imageDuration, env.sessionId⟩,
          cleanupSession dirExists)
      | .close _ =>
        (.error ("FFmpeg failed: " ++ sliceLastN env.ffmpegStderr 500),
          cleanupSession dirExists)
      | .spawnErr m => (.error m, dirExists)

/-- Embeds `getVideoBuffer(videoPath)`: `fs.readFile`, modelled by a
path-indexed file-contents oracle supplied by the caller's environment. -/
def getVideoBuffer (fileContents : String → String) (videoPath : String) :
    String :=
  fileContents videoPath

/-- Embeds `checkFFmpeg()`: resolves `true` exactly when spawning
`ffmpeg -version` closes with exit code 0. -/
def checkFFmpeg (ffmpegVersionEvent : FFmpegEvent) : Bool :=
  match ffmpegVersionEvent with
  | .close 0 => true
  | .close _ => false
  | .spawnErr _ => false

/-! ## Pipeline orchestrator — `bookVideoPipelineService.js`

`prepareNarrationScript` awaits `generateText` of the (sibling)
`llmClient.js`; that client is total per its contract — it returns a
string (possibly empty) and never throws — so its response is carried as
a plain string oracle in the environment.
-/

/-- The error `generateVoiceover` throws when `ELEVENLABS_API_KEY` is
absent. -/
def elevenLabsConfigMsg : String :=
  "ElevenLabs API key not configured. Set ELEVENLABS_API_KEY in .env file."

/-- The preflight failure message of `generateVideoFromSummary`. -/
def ffmpegNotInstalledMsg : String :=
  "FFmpeg is not installed or not available in PATH. Please install FFmpeg to generate videos."

/-- Embeds `NARRATOR_VOICES[voiceType] || NARRATOR_VOICES.female`. -/
def narratorVoiceId (voiceType : String) : String :=
  if voiceType = "male" then "JBFqnCBsd6RMkjVY3EL8"
  else if voiceType = "female" then "EXAVITQu4vr4xnSDxMaL"
  else if voiceType = "mysterious" then "nPczCjzI2devNBz1zQrb"
  else "EXAVITQu4vr4xnSDxMaL"

/-- Embeds `prepareNarrationScript(summary, title)`: a summary of at most 300
characters is used directly as `` `${title}. ${summary}` `` with no LLM
call; otherwise one LLM call is made and a blank (trimmed-empty) response
falls back to `` `${title}. ${summary.substring(0, 250)}...` ``.
Returns (script, LLM calls issued). -/
def prepareNarrationScript (summary title : String) (llmResponse : String) :
    String × Nat :=
  if summary.length ≤ 300 then
    (title ++ ". " ++ summary, 0)
  else
    let narration := llmResponse.trim
    (if narration = "" then title ++ ". " ++ summary.take 250 ++ "..."
     else narration, 1)

/-- Outcome of the one ElevenLabs text-to-speech call. -/
inductive TTSOutcome where
  | ok
  | err (msg : String)
deriving DecidableEq, Repr

/-- Embeds `generateVoiceover(text, voiceType)`: throws the configuration error
when the API key is absent (before any provider call); otherwise one TTS
call whose thrown error propagates; on success the duration is
`calculateSpeakingDuration(text)`. Returns (result, TTS calls issued). -/
def generateVoiceover (text voiceType : String) (configured : Bool)
    (outcome : TTSOutcome) : Except String ℤ × Nat :=
  if configured then
    let _voiceId := narratorVoiceId voiceType
    match outcome with
    | .ok => (.ok (calculateSpeakingDuration text), 1)
    | .err m => (.error m, 1)
  else
    (.error elevenLabsConfigMsg, 0)

/-- The caller-supplied request parameters, with the source's
destructuring defaults. -/
structure PipelineParams where
  summary : String
  title : String := "Book Preview"
  aesthetic : String := "cinematic"
  voiceType : String := "female"
  numImages : Nat := 4
  useEffects : Bool := false
deriving DecidableEq, Repr

/-- The whole environment one pipeline run observes. -/
structure PipelineEnv where
  /-- How `ffmpeg -version` settles for the preflight `checkFFmpeg`. -/
  ffmpegVersionEvent : FFmpegEvent
  /-- Embeds `generateText` response for the narration prompt. -/
  narrationLlmResponse : String
  /-- Environment of the image generation service. -/
  imageEnv : ImageSvcEnv
  /-- Embeds `!!ELEVENLABS_API_KEY`. -/
  elevenLabsConfigured : Bool
  /-- Outcome of the ElevenLabs call. -/
  ttsOutcome : TTSOutcome
  /-- Environment of the video compiler. -/
  compile : CompileEnv
  /-- Embeds `fs.readFile` oracle for `getVideoBuffer`. -/
  fileContents : String → String

/-- Embeds `metadata` of a successful pipeline result. -/
structure PipelineMetadata where
  title : String
  aesthetic : String
  narration : String
  imageCount : Nat
  sessionId : String
deriving DecidableEq, Repr

/-- The structured result `generateVideoFromSummary` returns (never
throws across its boundary). -/
structure PipelineResult where
  success : Bool
  error : Option String := none
  videoPath : Option String := none
  videoBuffer : Option String := none
  duration : Option ℚ := none
  metadata : Option PipelineMetadata := none
deriving DecidableEq, Repr

/-- Collaborator call counts observed during one pipeline run. -/
structure PipelineTrace where
  narrationLlmCalls : Nat := 0
  requestedSceneCount : Nat := 0
  sceneLlmCalls : Nat := 0
  primaryImageCalls : Nat := 0
  fallbackImageCalls : Nat := 0
  ttsCalls : Nat := 0
  compileCalls : Nat := 0
deriving DecidableEq, Repr

/-- The all-zero trace (no collaborator touched). -/
def zeroTrace : PipelineTrace := {}

/-- Embeds `error.message || 'Failed to generate video'` of the orchestrator's
`catch`. -/
def pipelineErrorMessage (m : String) : String :=
  if m = "" then "Failed to generate video" else m

/-- The `{ success: false, error }` result of the orchestrator's `catch`. -/
def pipelineFailure (m : String) : PipelineResult :=
  { success := false, error := some (pipelineErrorMessage m) }

/-- The `try` body of `generateVideoFromSummary` (steps 1–5), entered
after the FFmpeg preflight has passed. The source calls
`generateImagesFromSummary(summary, aesthetic, numImages)` — the third
argument is dropped because the callee declares only two parameters. -/
def pipelineAfterPreflight (p : PipelineParams) (env : PipelineEnv) :
    PipelineResult × PipelineTrace :=
  let script := prepareNarrationScript p.summary p.title env.narrationLlmResponse
  let narration := script.1
  let imgTrace := generateImagesFromSummary p.summary p.aesthetic env.imageEnv
  let voice := generateVoiceover narration p.voiceType
    env.elevenLabsConfigured env.ttsOutcome
  let baseTrace : PipelineTrace :=
    { narrationLlmCalls := script.2
      requestedSceneCount := imgTrace.requestedSceneCount
      sceneLlmCalls := imgTrace.sceneLlmCalls
      primaryImageCalls := imgTrace.primaryImageCalls
      fallbackImageCalls := imgTrace.fallbackImageCalls
      ttsCalls := voice.2
      compileCalls := 0 }
  match voice.1 with
  | .error m => (pipelineFailure m, baseTrace)
  | .ok audioDur =>
    let compileFn := if p.useEffects then compileVideoWithEffects else compileVideo
    let compiled := compileFn imgTrace.images true
      { resolution := "768x1024", audioDuration := some (audioDur : ℚ) }
      env.compile
    let trace := { baseTrace with compileCalls := 1 }
    match compiled.1 with
    | .error m => (pipelineFailure m, trace)
    | .ok v =>
      ({ success := true
         videoPath := some v.videoPath
         videoBuffer := some (getVideoBuffer env.fileContents v.videoPath)
         duration := some v.duration
         metadata := some
           { title := p.title
             aesthetic := p.aesthetic
             narration := narration
             imageCount := imgTrace.images.length
             sessionId := v.sessionId } }, trace)

/-- Embeds `generateVideoFromSummary(params)`: the FFmpeg preflight returns the
`not installed` failure before any collaborator is touched; otherwise the
four pipeline steps run and any thrown error is caught into a
`{ success: false, error }` result. -/
def generateVideoFromSummary (p : PipelineParams) (env : PipelineEnv) :
    PipelineResult × PipelineTrace :=
  if checkFFmpeg env.ffmpegVersionEvent then
    pipelineAfterPreflight p env
  else
    ({ success := false, error := some ffmpegNotInstalledMsg }, zeroTrace)

/-- Embeds `generateQuickVideo(params)`: `numImages: 3, useEffects: false`. -/
def generateQuickVideo (p : PipelineParams) (env : PipelineEnv) :
    PipelineResult × PipelineTrace :=
  generateVideoFromSummary { p with numImages := 3, useEffects := false } env

/-- Embeds `generatePremiumVideo(params)`: `numImages: 6, useEffects: true`. -/
def generatePremiumVideo (p : PipelineParams) (env : PipelineEnv) :
    PipelineResult × PipelineTrace :=
  generateVideoFromSummary { p with numImages := 6, useEffects := true } env

/-! ## Pipeline health — `checkPipelineHealth` of `bookVideoPipelineService.js`

```js
export async function checkPipelineHealth() {
  const ffmpegAvailable = await checkFFmpeg();
  return {
    ffmpeg: ffmpegAvailable,
    imageGeneration: isImageConfigured(),
    voiceGeneration: isVoiceConfigured(),
    ready: ffmpegAvailable, // Minimum requirement is FFmpeg
  };
}
```
`isImageConfigured` is `!!OPENROUTER_API_KEY` (`imageGenerationService.js`)
and `isVoiceConfigured` is `!!ELEVENLABS_API_KEY` (`elevenlabsService.js`).
-/

/-- Ambient configuration and probe results read by `checkPipelineHealth`. -/
structure HealthEnv where
  ffmpegAvailable : Bool
  openRouterConfigured : Bool
  elevenLabsConfigured : Bool
deriving DecidableEq, Repr

/-- The health report record. -/
structure PipelineHealth where
  ffmpeg : Bool
  imageGeneration : Bool
  voiceGeneration : Bool
  ready : Bool
deriving DecidableEq, Repr

/-- Embeds `checkPipelineHealth`. -/
def checkPipelineHealth (env : HealthEnv) : PipelineHealth :=
  { ffmpeg := env.ffmpegAvailable
    imageGeneration := env.openRouterConfigured
    voiceGeneration := env.elevenLabsConfigured
    ready := env.ffmpegAvailable }

/-! ## Concrete environments used to evaluate the embedded services -/

/-- A chat response whose string content is a plain image URL. -/
def urlResponse : ImgResponse :=
  { message := some { images := [], content := .str "http://img.example/scene.png" }
    dataArr := [] }

/-- A chat response that succeeds but carries no recognizable image shape:
nonempty string content with no URL and no base64 payload. -/
def unparsableResponse : ImgResponse :=
  { message := some { images := [], content := .str "no image here" }
    dataArr := [] }

/-- Image service with no OpenRouter key: the offline placeholder path. -/
def placeholderImageEnv : ImageSvcEnv :=
  { openRouterConfigured := false
    now := 0
    sceneLlmResponse := ""
    calls := fun _ => ⟨.err "e", .err "e"⟩ }

/-- Image service with a key, a scene-prompt LLM response with no JSON
(so the fallback scenes are used) and a primary provider that returns a
URL for every scene. -/
def configuredImageEnv : ImageSvcEnv :=
  { openRouterConfigured := true
    now := 0
    sceneLlmResponse := ""
    calls := fun _ => ⟨.ok urlResponse, .err "down"⟩ }

/-- A compiler environment where everything succeeds. -/
def okCompileEnv : CompileEnv :=
  { sessionId := "abc123"
    downloadOk := fun _ => true
    audioWrite := .ok ()
    ffmpegEvent := .close 0
    ffmpegStderr := "" }

/-- A short-summary request (301-character threshold not reached). -/
def quickParams : PipelineParams := { summary := "Hello world", title := "T" }

/-- A pipeline environment where every collaborator succeeds and the
image service takes the per-scene path. -/
def quickRunEnv : PipelineEnv :=
  { ffmpegVersionEvent := .close 0
    narrationLlmResponse := ""
    imageEnv := configuredImageEnv
    elevenLabsConfigured := true
    ttsOutcome := .ok
    compile := okCompileEnv
    fileContents := fun _ => "videobytes" }

/-- As `quickRunEnv` but the image service has no key (placeholder path). -/
def placeholderQuickEnv : PipelineEnv :=
  { quickRunEnv with imageEnv := placeholderImageEnv }

/-- As `quickRunEnv` but spawning `ffmpeg -version` fails (preflight). -/
def noFFmpegEnv : PipelineEnv :=
  { quickRunEnv with ffmpegVersionEvent := .spawnErr "enoent" }

/-- As `quickRunEnv` but `ELEVENLABS_API_KEY` is absent. -/
def noVoiceKeyEnv : PipelineEnv :=
  { quickRunEnv with elevenLabsConfigured := false }

/-- As `quickRunEnv` but the ElevenLabs call itself throws. -/
def ttsErrorEnv : PipelineEnv :=
  { quickRunEnv with ttsOutcome := .err "Request failed with status code 429" }

/-- A 30-word narration: thirty copies of `word` separated by blanks. -/
def thirtyWordNarration : String :=
  String.intercalate " " (List.replicate 30 "word")

/-! ## Supporting lemmas -/

/-- A voiceover that settles successfully reports the estimated speaking
duration of its text. -/
theorem generateVoiceover_ok_eq (text voiceType : String) (configured : Bool)
    (outcome : TTSOutcome) (d : ℤ)
    (h : (generateVoiceover text voiceType configured outcome).1 = .ok d) :
    d = calculateSpeakingDuration text := by
  unfold generateVoiceover at h
  cases configured <;> cases outcome <;> simp_all

/-- The speaking duration of the quick-run narration `T. Hello world`
(three words): `⌈3 / 2.5⌉ = 2`. -/
theorem calculateSpeakingDuration_quickNarration :
    calculateSpeakingDuration "T. Hello world" = 2 := by
  have h : wordCount "T. Hello world" = 3 := by decide
  unfold calculateSpeakingDuration
  rw [h, Int.ceil_eq_iff]
  norm_num

/-- The `try` block of `compileVideo` leaves the session directory in
place exactly on its throwing paths: a successful return has already
cleaned up. -/
theorem compileVideoTry_ok_state (imageUrls : List String) (hasAudio : Bool)
    (opts : CompileOpts) (env : CompileEnv) (v : CompileOk) (st : Bool)
    (h : compileVideoTry imageUrls hasAudio opts env = (.ok v, st)) :
    st = false := by
  unfold compileVideoTry at h
  repeat' split at h
  all_goals simp_all [cleanupSession]
  all_goals (repeat' split at h)
  all_goals simp_all

/-- A successful `compileVideoTry` with a nonzero audio duration reports
exactly that duration: the per-image duration is the audio duration
divided by the downloaded-image count, and the total is the product. -/
theorem compileVideoTry_ok_duration (imageUrls : List String)
    (hasAudio : Bool) (opts : CompileOpts) (env : CompileEnv)
    (v : CompileOk) (st : Bool) (dq : ℚ)
    (hd : opts.audioDuration = some dq) (hdz : dq ≠ 0)
    (h : compileVideoTry imageUrls hasAudio opts env = (.ok v, st)) :
    v.duration = dq := by
  unfold compileVideoTry at h
  rw [hd] at h
  repeat' split at h
  all_goals simp_all [cleanupSession]
  all_goals (repeat' split at h)
  all_goals simp_all
  obtain ⟨h1, -⟩ := h
  subst h1
  have hn : (downloadAllImages imageUrls env.downloadOk
      ("temp/" ++ env.sessionId)).length ≠ 0 := by
    simp only [ne_eq, List.length_eq_zero]
    exact ‹¬ downloadAllImages imageUrls env.downloadOk
      ("temp/" ++ env.sessionId) = []›
  dsimp only
  rw [mul_comm, div_mul_cancel₀ _ (Nat.cast_ne_zero.mpr hn)]

/-- A compiler call that settles `ok` did so through an `ok` of its `try`
block. -/
theorem compileVideo_fst_ok (imageUrls : List String) (hasAudio : Bool)
    (opts : CompileOpts) (env : CompileEnv) (v : CompileOk)
    (h : (compileVideo imageUrls hasAudio opts env).1 = .ok v) :
    ∃ st, compileVideoTry imageUrls hasAudio opts env = (.ok v, st) := by
  unfold compileVideo at h
  split at h
  · next v' st heq =>
    refine ⟨st, ?_⟩
    rw [heq]
    simp only at h
    rw [h]
  · simp at h

/-- A successful `compileVideo` with a nonzero audio duration reports
exactly that duration. -/
theorem compileVideo_ok_duration (imageUrls : List String)
    (hasAudio : Bool) (opts : CompileOpts) (env : CompileEnv)
    (v : CompileOk) (dq : ℚ)
    (hd : opts.audioDuration = some dq) (hdz : dq ≠ 0)
    (h : (compileVideo imageUrls hasAudio opts env).1 = .ok v) :
    v.duration = dq := by
  obtain ⟨st, hTry⟩ := compileVideo_fst_ok imageUrls hasAudio opts env v h
  exact compileVideoTry_ok_duration imageUrls hasAudio opts env v st dq hd hdz hTry

/-- A successful effects-free pipeline run reports as its video duration
exactly the audio duration handed to the compiler. -/
theorem pipeline_ok_duration (p : PipelineParams) (env : PipelineEnv)
    (r : PipelineResult) (t : PipelineTrace) (d : ℤ)
    (hup : p.useEffects = false)
    (hv : (generateVoiceover
        (prepareNarrationScript p.summary p.title env.narrationLlmResponse).1
        p.voiceType env.elevenLabsConfigured env.ttsOutcome).1 = .ok d)
    (hdz : (d : ℚ) ≠ 0)
    (h : generateVideoFromSummary p env = (r, t))
    (hs : r.success = true) :
    r.duration = some ((d : ℚ)) := by
  unfold generateVideoFromSummary at h
  by_cases hc : checkFFmpeg env.ffmpegVersionEvent = true
  · rw [if_pos hc] at h
    simp only [pipelineAfterPreflight, hv, hup] at h
    simp only [Bool.false_eq_true, if_false] at h
    split at h
    · obtain ⟨h1, -⟩ := Prod.mk.injEq .. ▸ h
      rw [← h1] at hs
      simp [pipelineFailure] at hs
    · next v heq =>
      obtain ⟨h1, -⟩ := Prod.mk.injEq .. ▸ h
      rw [← h1]
      dsimp only
      rw [compileVideo_ok_duration _ _ _ _ v ((d : ℚ)) rfl hdz heq]
  · rw [if_neg hc] at h
    obtain ⟨h1, -⟩ := Prod.mk.injEq .. ▸ h
    rw [← h1] at hs
    simp at hs

/-! ## Claim theorems -/

/-- Claim C10: `checkPipelineHealth`'s `ready` field equals FFmpeg
availability for every configuration, and in particular `ready` is `true`
while both `imageGeneration` and `voiceGeneration` are `false` when only
FFmpeg is present. -/
theorem pipeline_ready_iff_ffmpeg :
    (∀ env : HealthEnv, (checkPipelineHealth env).ready = env.ffmpegAvailable) ∧
    (checkPipelineHealth ⟨true, false, false⟩).ready = true ∧
    (checkPipelineHealth ⟨true, false, false⟩).imageGeneration = false ∧
    (checkPipelineHealth ⟨true, false, false⟩).voiceGeneration = false :=
  ⟨fun _ => rfl, rfl, rfl, rfl⟩

/-- Claim C9: The speaking-duration estimator is `⌈wordCount / 2.5⌉` for
every text, is monotone non-decreasing in the word count, and returns
exactly 12 seconds on a 30-word narration. -/
theorem speaking_duration_estimator_spec :
    (∀ s : String, calculateSpeakingDuration s = ⌈(wordCount s : ℚ) / (5 / 2 : ℚ)⌉) ∧
    (∀ s t : String, wordCount s ≤ wordCount t →
      calculateSpeakingDuration s ≤ calculateSpeakingDuration t) ∧
    wordCount thirtyWordNarration = 30 ∧
    calculateSpeakingDuration thirtyWordNarration = 12 := by
  refine ⟨fun _ => rfl, ?_, by decide, ?_⟩
  · intro s t h
    unfold calculateSpeakingDuration
    apply Int.ceil_le_ceil
    have h' : (wordCount s : ℚ) ≤ (wordCount t : ℚ) := by exact_mod_cast h
    gcongr
  · have h : wordCount thirtyWordNarration = 30 := by decide
    unfold calculateSpeakingDuration
    rw [h, Int.ceil_eq_iff]
    norm_num

/-- Witness for C9: the monotonicity applied at a one-word and a
three-word text. -/
theorem speaking_duration_estimator_spec_witness :
    calculateSpeakingDuration "a" ≤ calculateSpeakingDuration "a b c" :=
  speaking_duration_estimator_spec.2.1 "a" "a b c" (by decide)

/-- Claim C8: `generateText` calls OpenRouter exactly once when it is
configured and never otherwise; it makes at most one Gemini fallback
call, and only when Gemini is configured; when neither provider is
configured, and likewise when both calls throw, the result is the empty
string (and the function is total — it never throws). -/
theorem generateText_single_fallback_hop :
    ∀ env : LLMEnv,
      (generateText env).openRouterCalls
          = (if env.openRouterConfigured then 1 else 0) ∧
      (generateText env).geminiCalls ≤ 1 ∧
      ((generateText env).geminiCalls = 1 → env.geminiConfigured = true) ∧
      (env.openRouterConfigured = false → env.geminiConfigured = false →
        (generateText env).result = "") ∧
      (∀ m m', env.openRouterOutcome = .err m → env.geminiOutcome = .err m' →
        (generateText env).result = "") := by
  intro env
  obtain ⟨orc, oro, gc, go⟩ := env
  cases orc <;> cases gc <;> cases oro <;> cases go <;>
    simp [generateText, geminiFallback] <;> split_ifs <;> simp_all

/-- Witness for C8: both providers configured and both throwing yields
the empty string. -/
theorem generateText_single_fallback_hop_witness :
    (generateText ⟨true, .err "boom", true, .err "bust"⟩).result = "" :=
  (generateText_single_fallback_hop ⟨true, .err "boom", true, .err "bust"⟩).2.2.2.2
    "boom" "bust" rfl rfl

/-- Claim C7: When the FFmpeg preflight fails, `generateVideoFromSummary`
returns `{ success: false }` with the fixed `not installed` message and
touches no other collaborator: the whole call trace is zero. -/
theorem preflight_failure_returns_immediately :
    ∀ (p : PipelineParams) (env : PipelineEnv),
      checkFFmpeg env.ffmpegVersionEvent = false →
      (generateVideoFromSummary p env).1.success = false ∧
      (generateVideoFromSummary p env).1.error = some ffmpegNotInstalledMsg ∧
      strContains ffmpegNotInstalledMsg "not installed" = true ∧
      (generateVideoFromSummary p env).2 = zeroTrace := by
  intro p env h
  unfold generateVideoFromSummary
  rw [h]
  exact ⟨rfl, rfl, by decide, rfl⟩

/-- Witness for C7: a concrete spawn failure of `ffmpeg -version`. -/
theorem preflight_failure_returns_immediately_witness :
    (generateVideoFromSummary quickParams noFFmpegEnv).1.success = false ∧
    (generateVideoFromSummary quickParams noFFmpegEnv).2 = zeroTrace := by
  have h := preflight_failure_returns_immediately quickParams noFFmpegEnv (by decide)
  exact ⟨h.1, h.2.2.2⟩

/-- Claim C5: A summary of at most 300 characters is narrated as
`title + ". " + summary` verbatim, with zero LLM calls during the
scripting step (and hence zero narration-LLM calls in the whole
pipeline). -/
theorem short_summary_narration_skips_llm :
    (∀ summary title llmResponse : String, summary.length ≤ 300 →
      prepareNarrationScript summary title llmResponse
        = (title ++ ". " ++ summary, 0)) ∧
    (∀ (p : PipelineParams) (env : PipelineEnv), p.summary.length ≤ 300 →
      (generateVideoFromSummary p env).2.narrationLlmCalls = 0) := by
  constructor
  · intro summary title llmResponse h
    unfold prepareNarrationScript
    rw [if_pos h]
  · intro p env h
    unfold generateVideoFromSummary
    by_cases hc : checkFFmpeg env.ffmpegVersionEvent = true
    · rw [if_pos hc]
      unfold pipelineAfterPreflight
      have hn : prepareNarrationScript p.summary p.title env.narrationLlmResponse
          = (p.title ++ ". " ++ p.summary, 0) := by
        unfold prepareNarrationScript
        rw [if_pos h]
      rw [hn]
      dsimp only
      repeat' split
      all_goals rfl
    · rw [if_neg hc]
      rfl

/-- Witness for C5: an 11-character summary. -/
theorem short_summary_narration_skips_llm_witness :
    prepareNarrationScript "Hello world" "T" "ignored" = ("T. Hello world", 0) :=
  short_summary_narration_skips_llm.1 "Hello world" "T" "ignored" (by decide)

/-- Claim C4: `compileVideo` never leaves its session-scoped temporary
directory behind: on the success path it cleans up before returning, and
every thrown error passes through the `catch` that cleans up before
rethrowing — for every input and environment the final state has no
session directory. -/
theorem compileVideo_always_removes_session_dir :
    ∀ (imageUrls : List String) (hasAudio : Bool) (opts : CompileOpts)
      (env : CompileEnv),
      (compileVideo imageUrls hasAudio opts env).2 = false := by
  intro imageUrls hasAudio opts env
  unfold compileVideo
  split
  · next v st heq =>
    exact compileVideoTry_ok_state imageUrls hasAudio opts env v st heq
  · rfl

/-- Claim C3 counterexample: A primary response with no recognizable image
shape (`unparsableResponse`) makes the scene yield `null` with *zero*
fallback calls — not the one fallback call the claim asserts. -/
theorem unparsable_primary_response_makes_no_fallback_call :
    (generateSingleImage "a scene" "cinematic"
      ⟨.ok unparsableResponse, .err "down"⟩).1 = none ∧
    (generateSingleImage "a scene" "cinematic"
      ⟨.ok unparsableResponse, .err "down"⟩).2.2 = 0 ∧
    ¬ (generateSingleImage "a scene" "cinematic"
      ⟨.ok unparsableResponse, .err "down"⟩).2.2 = 1 := by
  decide

/-- Claim C3 (amended): A scene falls back exactly when the primary call
*throws*: then exactly one fallback call is made for that scene, and if
it also fails the scene yields `null`; a successful-but-unparsable
primary response yields `null` directly with no fallback call; the
returned image array is the per-scene results with the `null`s filtered
out. -/
theorem scene_fallback_only_on_primary_error :
    (∀ (prompt aesthetic : String) (env : SceneCallEnv) m,
      env.primary = .err m →
      (generateSingleImage prompt aesthetic env).2.2 = 1) ∧
    (∀ (prompt aesthetic : String) (env : SceneCallEnv) r,
      env.primary = .ok r →
      (generateSingleImage prompt aesthetic env).2.2 = 0 ∧
      (generateSingleImage prompt aesthetic env).1 = extractImage r) ∧
    (∀ (prompt aesthetic : String) (env : SceneCallEnv) m m',
      env.primary = .err m → env.fallback = .err m' →
      (generateSingleImage prompt aesthetic env).1 = none) ∧
    (∀ (summary aesthetic : String) (ienv : ImageSvcEnv),
      ienv.openRouterConfigured = true →
      (generateImagesFromSummary summary aesthetic ienv).images
        = (generateImagesFromSummary summary aesthetic ienv).sceneResults.filterMap id) := by
  refine ⟨?_, ?_, ?_, ?_⟩
  · intro prompt aesthetic env m h
    obtain ⟨pr, fb⟩ := env
    cases pr <;> cases fb <;> simp_all [generateSingleImage, generateImageFallback]
  · intro prompt aesthetic env r h
    obtain ⟨pr, fb⟩ := env
    cases pr <;> simp_all [generateSingleImage]
  · intro prompt aesthetic env m m' h h'
    obtain ⟨pr, fb⟩ := env
    cases pr <;> cases fb <;> simp_all [generateSingleImage, generateImageFallback]
  · intro summary aesthetic ienv h
    unfold generateImagesFromSummary
    rw [h]
    simp

/-- Witness for C3 (amended): a throwing primary call with a failing
fallback yields `null` after exactly one fallback call. -/
theorem scene_fallback_only_on_primary_error_witness :
    (generateSingleImage "p" "cinematic" ⟨.err "boom", .err "down"⟩).2.2 = 1 ∧
    (generateSingleImage "p" "cinematic" ⟨.err "boom", .err "down"⟩).1 = none :=
  ⟨scene_fallback_only_on_primary_error.1 "p" "cinematic"
      ⟨.err "boom", .err "down"⟩ "boom" rfl,
    scene_fallback_only_on_primary_error.2.2.1 "p" "cinematic"
      ⟨.err "boom", .err "down"⟩ "boom" "down" rfl rfl⟩

/-- Claim C6: With FFmpeg present but `ELEVENLABS_API_KEY` absent, the
pipeline fails as a whole: `{ success: false }` carrying exactly the
fixed configuration message (which contains `not configured`), with no
video path and no video buffer, and without the TTS provider ever being
called; a *provider* error instead surfaces the provider's own message,
so the two failure modes are distinguishable. -/
theorem missing_voice_config_fails_pipeline :
    (∀ (p : PipelineParams) (env : PipelineEnv),
        checkFFmpeg env.ffmpegVersionEvent = true →
        env.elevenLabsConfigured = false →
        (generateVideoFromSummary p env).1.success = false ∧
        (generateVideoFromSummary p env).1.error = some elevenLabsConfigMsg ∧
        (generateVideoFromSummary p env).1.videoPath = none ∧
        (generateVideoFromSummary p env).1.videoBuffer = none ∧
        (generateVideoFromSummary p env).2.ttsCalls = 0) ∧
    (∀ (p : PipelineParams) (env : PipelineEnv) (m : String),
        checkFFmpeg env.ffmpegVersionEvent = true →
        env.elevenLabsConfigured = true →
        env.ttsOutcome = .err m → m ≠ "" →
        (generateVideoFromSummary p env).1.success = false ∧
        (generateVideoFromSummary p env).1.error = some m) ∧
    strContains elevenLabsConfigMsg "not configured" = true ∧
    elevenLabsConfigMsg ≠ ffmpegNotInstalledMsg := by
  refine ⟨?_, ?_, by decide, by decide⟩
  · intro p env h1 h2
    unfold generateVideoFromSummary pipelineAfterPreflight
    rw [if_pos h1]
    dsimp only
    rw [h2]
    exact ⟨rfl, rfl, rfl, rfl, rfl⟩
  · intro p env m h1 h2 h3 hm
    unfold generateVideoFromSummary pipelineAfterPreflight
    rw [if_pos h1]
    dsimp only
    rw [h2, h3]
    refine ⟨rfl, ?_⟩
    show some (pipelineErrorMessage m) = some m
    unfold pipelineErrorMessage
    rw [if_neg hm]

/-- Witness for C6: the missing-key failure and, separately, a provider
failure carrying the provider's message. -/
theorem missing_voice_config_fails_pipeline_witness :
    (generateVideoFromSummary quickParams noVoiceKeyEnv).1.success = false ∧
    (generateVideoFromSummary quickParams noVoiceKeyEnv).1.error
      = some elevenLabsConfigMsg ∧
    (generateVideoFromSummary quickParams ttsErrorEnv).1.error
      = some "Request failed with status code 429" :=
  ⟨(missing_voice_config_fails_pipeline.1 quickParams noVoiceKeyEnv
      (by decide) rfl).1,
    (missing_voice_config_fails_pipeline.1 quickParams noVoiceKeyEnv
      (by decide) rfl).2.1,
    (missing_voice_config_fails_pipeline.2.1 quickParams ttsErrorEnv
      "Request failed with status code 429" (by decide) rfl rfl (by decide)).2⟩

/-- Claim C1 (code bug): The image service ignores the preset's image
count: `generateImagesFromSummary` declares no `numImages` parameter and
hardcodes 4, so the quick preset (`numImages: 3`) and the premium preset
(`numImages: 6`) both request 4 scene prompts and issue 4 primary
image-generation calls — only the standard preset happens to match. -/
theorem presets_request_four_scenes_regardless :
    (generateQuickVideo quickParams quickRunEnv).2.requestedSceneCount = 4 ∧
    (generateQuickVideo quickParams quickRunEnv).2.primaryImageCalls = 4 ∧
    (generatePremiumVideo quickParams quickRunEnv).2.requestedSceneCount = 4 ∧
    (generatePremiumVideo quickParams quickRunEnv).2.primaryImageCalls = 4 ∧
    (generateVideoFromSummary quickParams quickRunEnv).2.requestedSceneCount = 4 ∧
    (generateVideoFromSummary quickParams quickRunEnv).2.primaryImageCalls = 4 := by
  decide

/-- Claim C2 (code bug): A successful quick run (`numImages: 3`) uses 4
image assets — more than the requested count, violating
`len(imageAssets) ≤ numImages` — while the reported video duration does
equal the audio duration (2 seconds for the three-word narration). -/
theorem quick_run_image_count_and_duration :
    (generateQuickVideo quickParams placeholderQuickEnv).1.success = true ∧
    ((generateQuickVideo quickParams placeholderQuickEnv).1.metadata).map
        PipelineMetadata.imageCount = some 4 ∧
    (generateQuickVideo quickParams placeholderQuickEnv).1.duration = some 2 ∧
    calculateSpeakingDuration "T. Hello world" = 2 := by
  refine ⟨by decide, by decide, ?_, calculateSpeakingDuration_quickNarration⟩
  have h1 : (prepareNarrationScript "Hello world" "T" "").1 = "T. Hello world" := by
    decide
  have hv : (generateVoiceover (prepareNarrationScript "Hello world" "T" "").1
      "female" true TTSOutcome.ok).1 = Except.ok 2 := by
    simp [h1, generateVoiceover, calculateSpeakingDuration_quickNarration]
  have h := pipeline_ok_duration
    { quickParams with numImages := 3, useEffects := false } placeholderQuickEnv
    (generateQuickVideo quickParams placeholderQuickEnv).1
    (generateQuickVideo quickParams placeholderQuickEnv).2
    2 rfl hv (by norm_num) rfl (by decide)
  simpa using h

end BookTok
